import Mathlib

/-!
# Shallow embedding of `bot.py` (dart-alert)

This file embeds the filing-alert script `src/bot.py` in Lean 4 and proves
properties of its classification / deduplication / scoring pipeline.

Conventions used throughout:

* Python strings are Lean `String`s; regex searches operate on `String.data`
  (`List Char`).
* The regexes of `bot.py` are alternations of Hangul literals, optionally
  separated by `\s*`.  They are modelled by an exact literal/whitespace-gap
  matcher (`searchTokens` below).  The `re.I` flags on those patterns are
  no-ops, since the patterns contain no cased ASCII letters.  The Python `\s`
  also matches some non-ASCII Unicode whitespace; the model uses the ASCII
  whitespace set, which is what every property below exercises.
* External I/O (HTTP responses, archive contents, the Telegram transport) is
  modelled by explicit environment records (`PageResp`, `DocResponse`, `Env`):
  a field of such a record is the data the outside world hands the script,
  and boolean fields record whether a call raised.  The byte-level
  `_xml_to_text` decode of a fetched payload is part of that environment (its
  textified output is carried in the record); no claim below depends on its
  internals.
* The persisted `state.json` dictionary is modelled as an association list
  `List (String × J)` over a small JSON value type `J`; `json.dump`/`json.load`
  round-tripping of a value is modelled by storing the `J` value itself.
-/

/-! ## Character / substring utilities -/

/-- ASCII whitespace, as matched by the Python class `\s` on the inputs of interest. -/
def isPyWS (c : Char) : Bool :=
  c = ' ' || c = '\t' || c = '\n' || c = '\r' || c = '\x0b' || c = '\x0c'

/-- Python `str.strip()` (whitespace at both ends removed), implemented
structurally so that it evaluates inside the kernel. -/
def pyStrip (s : String) : String :=
  String.mk (((s.data.dropWhile isPyWS).reverse.dropWhile isPyWS).reverse)

/-- ASCII-range `str.upper()` / `str.lower()` on one character (the inputs
these are applied to — market codes, content types, archive names — are
ASCII, where Python agrees). -/
def pyCharUpper (c : Char) : Char :=
  if 'a' ≤ c ∧ c ≤ 'z' then Char.ofNat (c.toNat - 32) else c

def pyCharLower (c : Char) : Char :=
  if 'A' ≤ c ∧ c ≤ 'Z' then Char.ofNat (c.toNat + 32) else c

/-- Python `str.upper()`. -/
def pyUpper (s : String) : String := String.mk (s.data.map pyCharUpper)

/-- Python `str.lower()`. -/
def pyLower (s : String) : String := String.mk (s.data.map pyCharLower)

/-- Evaluating `stripSeq lit l` returns `some rest` when `lit` is a leading
literal of `l`, with `rest` the remainder. -/
def stripSeq : List Char → List Char → Option (List Char)
  | [], l => some l
  | _ :: _, [] => none
  | a :: as, b :: bs => if a = b then stripSeq as bs else none

/-- Does the literal `p` occur at the very start of `l`? -/
def startsWithSeq (p l : List Char) : Bool :=
  (stripSeq p l).isSome

/-- Models `str.endswith(suffix)`. -/
def endsWithSeq (suffix l : List Char) : Bool :=
  startsWithSeq suffix.reverse l.reverse

/-- Does the literal `p` occur anywhere in `l`?  This models
`re.search` for a pattern with no metacharacters. -/
def containsSeq (p : List Char) : List Char → Bool
  | [] => startsWithSeq p []
  | c :: rest => startsWithSeq p (c :: rest) || containsSeq p rest

/-- Match, at the start of `l`, a sequence of literal tokens separated by
`\s*`.  Each token of the patterns in `bot.py` begins with a non-whitespace
character, so the greedy skip `dropWhile isPyWS` decides `\s*` exactly. -/
def matchTokensAt : List (List Char) → List Char → Bool
  | [], _ => true
  | t :: ts, l =>
    match stripSeq t l with
    | none => false
    | some rest =>
      match ts with
      | [] => true
      | _ :: _ => matchTokensAt ts (rest.dropWhile isPyWS)

/-- Models `re.search` of a `\s*`-separated token pattern: try every start position. -/
def searchTokens (ts : List (List Char)) : List Char → Bool
  | [] => matchTokensAt ts []
  | c :: rest => matchTokensAt ts (c :: rest) || searchTokens ts (c :: rest).tail

/-! ## The filter regexes of `bot.py` (lines 39–49) -/

/-- Pattern `INC_REPORT`: `(유상증자\s*결정|유상증자결정|무상증자\s*결정|무상증자결정|유무상증자\s*결정|유무상증자결정)`. -/
def INC_REPORT_search (s : List Char) : Bool :=
  searchTokens ["유상증자".data, "결정".data] s || containsSeq "유상증자결정".data s ||
  searchTokens ["무상증자".data, "결정".data] s || containsSeq "무상증자결정".data s ||
  searchTokens ["유무상증자".data, "결정".data] s || containsSeq "유무상증자결정".data s

/-- Pattern `EXC_3RD`: `(제\s*3\s*자\s*배정|제3자배정)` — the third-party-allocation
disqualifier. -/
def EXC_3RD_search (s : List Char) : Bool :=
  searchTokens ["제".data, "3".data, "자".data, "배정".data] s ||
  containsSeq "제3자배정".data s

/-- Pattern `ALLOW_GENERAL`: `(일반\s*주주\s*배정|일반주주배정)`. -/
def ALLOW_GENERAL_search (s : List Char) : Bool :=
  searchTokens ["일반".data, "주주".data, "배정".data] s ||
  containsSeq "일반주주배정".data s

/-- Pattern `ALLOW_SHAREHOLDER`: `(주주\s*배정|주주배정|구주주\s*청약|구주주청약|구주주)`. -/
def ALLOW_SHAREHOLDER_search (s : List Char) : Bool :=
  searchTokens ["주주".data, "배정".data] s || containsSeq "주주배정".data s ||
  searchTokens ["구주주".data, "청약".data] s || containsSeq "구주주청약".data s ||
  containsSeq "구주주".data s

/-! ## Classifiers (`bot.py` lines 220–235) -/

/-- Models `classify_event_type(report_nm)`: tests `무상증자`, then `유무상증자`,
then `유상증자` (plain substring searches, no flags). -/
def classify_event_type (report_nm : String) : String :=
  if containsSeq "무상증자".data report_nm.data then "무상"
  else if containsSeq "유무상증자".data report_nm.data then "유무상"
  else if containsSeq "유상증자".data report_nm.data then "유상"
  else "N/A"

/-- Models `classify_allocation(doc_text)`. -/
def classify_allocation (doc_text : List Char) : String :=
  if ALLOW_GENERAL_search doc_text then "일반주주배정"
  else if ALLOW_SHAREHOLDER_search doc_text then "주주배정"
  else "N/A"

/-! ## `state.json` (`bot.py` lines 28–29, 69–93) -/

/-- A JSON value, as produced by `json.load`. -/
inductive J where
  | null
  | bool (b : Bool)
  | num (n : Int)
  | str (s : String)
  | arr (l : List J)
  | obj (kvs : List (String × J))

/-- Dictionary lookup (`st.get(k)` / `k in st`) on the association-list model. -/
def lookupKey : List (String × J) → String → Option J
  | [], _ => none
  | (k', v) :: rest, k => if k' = k then some v else lookupKey rest k

/-- Dictionary assignment `st[k] = v`: replace the binding in place, or append. -/
def setKey : List (String × J) → String → J → List (String × J)
  | [], k, v => [(k, v)]
  | (k', v') :: rest, k, v =>
    if k' = k then (k, v) :: rest else (k', v') :: setKey rest k v

def SEEN_MAX : Nat := 8000

/-- Models `load_state()`: `none` models an unreadable/missing/unparsable file (the
`except` branch); otherwise the parsed JSON value is validated exactly as in
the source: non-dict → `{"seen": []}`, missing or non-list `"seen"` → reset
to `[]`, anything else returned as-is. -/
def load_state (file : Option J) : List (String × J) :=
  match file with
  | some (J.obj kvs) =>
    match lookupKey kvs "seen" with
    | some (J.arr _) => kvs
    | _ => setKey kvs "seen" (J.arr [])
  | _ => [("seen", J.arr [])]

/-- Models `save_state(st)`: truncate `seen` to its last `SEEN_MAX` entries and dump
the dictionary.  The returned association list is both the mutated `st` and
the content written to `state.json`. -/
def save_state (st : List (String × J)) : List (String × J) :=
  let seen := match lookupKey st "seen" with
    | some (J.arr l) => l
    | _ => ([] : List J)
  setKey st "seen" (J.arr (seen.drop (seen.length - SEEN_MAX)))

/-- Membership of `rcept_no` in `set(st.get("seen", []))`: a JSON string
equal to `rcept_no` (a non-string member never equals a `str`). -/
def seenMatch (rcept_no : String) : J → Bool
  | J.str s => s = rcept_no
  | _ => false

/-- Models `is_seen(st, rcept_no)`.  (After `load_state`, `"seen"` is always a list;
the non-list case, which would raise in Python, is modelled as `false`.) -/
def is_seen (st : List (String × J)) (rcept_no : String) : Bool :=
  match lookupKey st "seen" with
  | some (J.arr l) => l.any (seenMatch rcept_no)
  | _ => false

/-- Models `mark_seen(st, rcept_no)`: `st.setdefault("seen", []).append(rcept_no)`.
(The non-list case, which would raise in Python, is modelled as a no-op; it is
unreachable after `load_state`.) -/
def mark_seen (st : List (String × J)) (rcept_no : String) : List (String × J) :=
  match lookupKey st "seen" with
  | some (J.arr l) => setKey st "seen" (J.arr (l ++ [J.str rcept_no]))
  | some _ => st
  | none => setKey st "seen" (J.arr [J.str rcept_no])

/-! ## Listing fetch (`bot.py` lines 25–26, 122–181) -/

def MAX_PAGES : Nat := 12
def PAGE_COUNT : Nat := 100

/-- One row of the `list` array of `list.json` (`it.get(...)` fields used by
`main`; absent keys are modelled as `""`, matching `it.get(k) or ""`). -/
structure Item where
  rcept_no : String
  corp_cls : String
  report_nm : String
  corp_name : String
  rcept_dt : String
  stock_code : String

/-- One `list.json` response.  `total_count`/`page_count` are `none` when the
key is absent/falsy (→ `int(0)` resp. the `PAGE_COUNT` default) or when
`int()` would fail — in every such case the source skips the total-count
break, exactly as `none` does below. -/
structure PageResp where
  status : String
  message : String
  lst : List Item
  total_count : Option Nat
  page_count : Option Nat

/-- The `total_count`-based early-stop test (`bot.py` lines 161–167). -/
def pageBreakByTotal (p : Nat) (r : PageResp) : Bool :=
  match r.total_count with
  | none => false
  | some total =>
    let pc := r.page_count.getD PAGE_COUNT
    total ≠ 0 && total ≤ p * pc

/-- The pagination loop of `fetch_list_pages`: `fuel` pages remain, current
page number `p`.  A `!= "000"` status raises `RuntimeError` (modelled as
`Except.error`); exhausting `MAX_PAGES` is a non-fatal stop. -/
def fetch_list_pagesFrom (pages : Nat → PageResp) : Nat → Nat → Except String (List Item)
  | 0, _ => .ok []
  | fuel + 1, p =>
    let j := pages p
    if j.status = "013" then .ok []
    else if j.status ≠ "000" then .error ("LIST error " ++ j.status ++ ": " ++ j.message)
    else if j.lst.isEmpty then .ok []
    else if pageBreakByTotal p j then .ok j.lst
    else
      match fetch_list_pagesFrom pages fuel (p + 1) with
      | .ok rest => .ok (j.lst ++ rest)
      | .error e => .error e

/-- The `rcept_no` dedup pass (first occurrence wins, blank ids dropped). -/
def dedupItems (seenR : List String) : List Item → List Item
  | [] => []
  | it :: rest =>
    let rno := (pyStrip it.rcept_no)
    if rno = "" || seenR.contains rno then dedupItems seenR rest
    else it :: dedupItems (rno :: seenR) rest

/-- Code-point lexicographic `<` on strings (Python `str` comparison). -/
def listCharLT : List Char → List Char → Bool
  | [], [] => false
  | [], _ :: _ => true
  | _ :: _, [] => false
  | a :: as, b :: bs => if a = b then listCharLT as bs else decide (a.toNat < b.toNat)

/-- The sort key ordering `(x.get("rcept_dt",""), x.get("rcept_no",""))`. -/
def itemLE (a b : Item) : Bool :=
  listCharLT a.rcept_dt.data b.rcept_dt.data ||
  (a.rcept_dt = b.rcept_dt &&
    (listCharLT a.rcept_no.data b.rcept_no.data || a.rcept_no = b.rcept_no))

/-- Stable insertion: a new element goes after existing key-equal elements. -/
def insertItem (x : Item) : List Item → List Item
  | [] => [x]
  | y :: ys => if itemLE y x then y :: insertItem x ys else x :: y :: ys

/-- Stable ascending sort by `(rcept_dt, rcept_no)` — the same function as
the stable Python `list.sort(key=...)` (insertion sort placing each element
after key-equal predecessors is stable). -/
def sortItems (l : List Item) : List Item :=
  l.foldl (fun acc x => insertItem x acc) []

/-- Models `fetch_list_pages()`: paginate, then dedup by `rcept_no`, then sort
oldest-first. -/
def fetch_list_pages (pages : Nat → PageResp) : Except String (List Item) :=
  match fetch_list_pagesFrom pages MAX_PAGES 1 with
  | .ok out => .ok (sortItems (dedupItems [] out))
  | .error e => .error e

/-! ## Document fetch (`bot.py` lines 197–215) -/

/-- One member of the fetched document archive.  `text = some t` carries the
`_xml_to_text` output of `z.read(name)`; `text = none` models the inner
an exception in the inner `try` (a corrupt member), which the source suppresses. -/
structure DocEntry where
  name : String
  text : List Char
  readOk : Bool

/-- The outcome of `S.get(DOC_URL, ...)` for one `rcept_no`.  `httpError`
covers a network failure or `raise_for_status()`; `zipOpenOk` is whether
`zipfile.ZipFile` accepts the payload; `rawTextified` is `_xml_to_text(raw)`
for the non-archive branch. -/
structure DocResponse where
  httpError : Bool
  contentType : String
  startsPK : Bool
  zipOpenOk : Bool
  entries : List DocEntry
  rawTextified : List Char

/-- Models `name.lower().endswith((".xml", ".html", ".htm"))`. -/
def hasDocExt (name : String) : Bool :=
  let n := pyLower name
  endsWithSeq ".xml".data n.data || endsWithSeq ".html".data n.data ||
    endsWithSeq ".htm".data n.data

/-- The `is_zip` sniff: ``"zip" in Content-Type.lower()`` or a `PK` magic. -/
def isZipResp (resp : DocResponse) : Bool :=
  containsSeq "zip".data (pyLower resp.contentType).data || resp.startsPK

/-- Models `fetch_document_text(rcept_no)` over the modelled response.
`Except.error` models an uncaught exception escaping the function. -/
def fetch_document_text (resp : DocResponse) : Except String (List Char) :=
  if resp.httpError then .error "HTTPError"
  else if isZipResp resp then
    if resp.zipOpenOk then
      let texts := resp.entries.filterMap fun e =>
        if hasDocExt e.name then (if e.readOk then some e.text else none) else none
      .ok (List.intercalate "\n\n".data (texts.filter (fun t => !t.isEmpty)))
    else .error "BadZipFile"
  else .ok resp.rawTextified

/-! ## The per-filing pipeline of `main()` (`bot.py` lines 754–857) -/

/-- Models `market_ok(corp_cls)` with the configured `MARKET_CLASSES` made explicit
(default `["Y", "K", "N"]`). -/
def market_ok (marketClasses : List String) (corp_cls : String) : Bool :=
  if marketClasses.isEmpty then true
  else marketClasses.contains (pyUpper (pyStrip corp_cls))

/-- The external world for one run: listing pages, per-filing document
responses, and whether the Telegram send for a filing succeeds (the card
content never influences control flow).  The Naver price scrape is wrapped in
`try: ... except: (0, 0)` in the source and cannot affect control flow, so it
is not modelled. -/
structure Env where
  marketClasses : List String
  listPages : Nat → PageResp
  doc : String → DocResponse
  sendOk : String → Bool

/-- What the loop body of `main` does with one listing item. -/
inductive Step where
  | skipEmptyRno
  | skipSeen
  | seenMarketReject
  | seenTitleReject
  | seenFetchError
  | seenExc3rd
  | seenAllocNA
  | sentAndSeen
  | sendAborted
deriving DecidableEq

/-- Was `fetch_document_text` called on this path through the loop body? -/
def fetchAttempted : Step → Bool
  | .skipEmptyRno | .skipSeen | .seenMarketReject | .seenTitleReject => false
  | _ => true

/-- The loop body of `main()` for one item, against state `st`:
blank-id/seen skips, the market gate, the `INC_REPORT` title gate, the
document fetch (whose exception is caught and converted to a mark-seen skip),
the `EXC_3RD` body exclusion, the allocation gate, and the send. -/
def process_filing (env : Env) (st : List (String × J)) (it : Item) : Step :=
  if pyStrip it.rcept_no = "" then .skipEmptyRno
  else if is_seen st (pyStrip it.rcept_no) then .skipSeen
  else if !market_ok env.marketClasses (pyUpper (pyStrip it.corp_cls)) then .seenMarketReject
  else if !INC_REPORT_search (pyStrip it.report_nm).data then .seenTitleReject
  else
    match fetch_document_text (env.doc (pyStrip it.rcept_no)) with
    | .error _ => .seenFetchError
    | .ok doc_text =>
      if EXC_3RD_search doc_text then .seenExc3rd
      else if classify_allocation doc_text = "N/A" then .seenAllocNA
      else if env.sendOk (pyStrip it.rcept_no) then .sentAndSeen
      else .sendAborted

/-- Result of draining the item loop: either the final state and sent count,
or the state at the moment an uncaught `tg_send` exception aborted the loop. -/
inductive LoopResult where
  | finished (st : List (String × J)) (sent : Nat)
  | aborted (st : List (String × J))

/-- The item loop of `main()`. -/
def process_items (env : Env) : List Item → List (String × J) → Nat → LoopResult
  | [], st, sent => .finished st sent
  | it :: rest, st, sent =>
    match process_filing env st it with
    | .skipEmptyRno => process_items env rest st sent
    | .skipSeen => process_items env rest st sent
    | .sentAndSeen => process_items env rest (mark_seen st (pyStrip it.rcept_no)) (sent + 1)
    | .sendAborted => .aborted st
    | _ => process_items env rest (mark_seen st (pyStrip it.rcept_no)) sent

/-- Observable outcome of one `main()` invocation.  Only `completed` writes
`state.json` (its payload is the written dictionary); both abort outcomes
leave the state file untouched — `listError` carries the `RuntimeError`
message, `sendError` the in-memory (discarded) state at the abort. -/
inductive RunResult where
  | completed (file : List (String × J)) (sent : Nat)
  | listError (msg : String)
  | sendError (stAtAbort : List (String × J))

/-- Models `main()`: load state, fetch the listing (a bad status raises out of the
run before any item is processed), drain the loop, save state.  (Named
`main_run` because Lean reserves the name `main` for executables.) -/
def main_run (env : Env) (file : Option J) : RunResult :=
  let st := load_state file
  match fetch_list_pages env.listPages with
  | .error e => .listError e
  | .ok items =>
    match process_items env items st 0 with
    | .aborted stA => .sendError stA
    | .finished st' sent => .completed (save_state st') sent

/-! ## Risk score (`bot.py` lines 550–658)

`risk_score` is a sequence of `score += ...` updates; it is embedded as the
sum of one component per update (addition is associative, so the sum equals
the sequential accumulation).  The Python float division `raise_krw / mcap_krw`
and the float `discount_pct` are modelled exactly over `ℚ`; the claims below
are about threshold buckets, which this idealisation preserves. -/

/-- Models `_is_empty_value(v)` for a string argument. -/
def _is_empty_value (v : String) : Bool :=
  let s := pyStrip v
  if s = "" then true
  else if pyUpper s = "N/A" then true
  else s = "0" || s = "0원" || s = "0 주" || s = "0주"

/-- Models `fields.get(k)` on the extracted-fields dictionary. -/
def fget (fields : List (String × String)) (k : String) : Option String :=
  match fields with
  | [] => none
  | (k', v) :: rest => if k' = k then some v else fget rest k

/-- Models `re.search("(a|b|...)", s)` for an alternation of plain literals. -/
def containsAnyKR (pats : List String) (s : String) : Bool :=
  pats.any fun p => containsSeq p.data s.data

/-- Lines 579–587: the event-type component. -/
def evBonus (ev_type : String) : Int :=
  let et := pyStrip ev_type
  if et = "유상" then 38
  else if et = "유무상" then 28
  else if et = "무상" then 8
  else 15

/-- Lines 589–597: the market-segment component. -/
def marketBonus (market : String) : Int :=
  let mk := pyUpper market
  if mk = "KOSDAQ" then 10
  else if mk = "KONEX" then 15
  else if mk = "KOSPI" then 5
  else 7

/-- Lines 599–602: the allocation component. -/
def allocBonus (alloc : String) : Int :=
  if alloc = "주주배정" then 8
  else if alloc = "일반주주배정" then 6
  else 0

/-- Lines 604–610: the funding-purpose component. -/
def purposeBonus (purpose : String) : Int :=
  (if containsAnyKR ["채무", "상환", "차입", "대출"] purpose then 18 else 0) +
  (if containsAnyKR ["운영", "운전자금"] purpose then 10 else 0) +
  (if containsAnyKR ["타법인", "M&A", "인수", "취득", "투자"] purpose then 12 else 0)

/-- Lines 612–614: `+4` per present schedule/price field. -/
def fieldsBonus (fields : List (String × String)) : Int :=
  ["청약일", "예정가", "확정일", "신주인수권상장예정기간", "신주의상장예정일"].foldl
    (fun sc k => if !_is_empty_value ((fget fields k).getD "N/A") then sc + 4 else sc) 0

/-- Lines 616–628: the raise-to-market-cap ratio component. -/
def ratioBonus (raise_krw mcap_krw : Int) : Int :=
  if 0 < raise_krw ∧ 0 < mcap_krw then
    let ratio : ℚ := (raise_krw : ℚ) / (mcap_krw : ℚ)
    if 1 / 2 ≤ ratio then 22
    else if 3 / 10 ≤ ratio then 16
    else if 3 / 20 ≤ ratio then 10
    else if 1 / 20 ≤ ratio then 6
    else 2
  else 0

/-- Lines 630–639: the offer-price discount component. -/
def discountBonus : Option ℚ → Int
  | none => 0
  | some d =>
    if 35 ≤ d then 16
    else if 25 ≤ d then 12
    else if 15 ≤ d then 8
    else if 8 ≤ d then 4
    else 0

/-- Lines 641–645: controlling-shareholder participation. -/
def majorBonus (major_part : String) : Int :=
  if major_part = "불참" then 18
  else if major_part = "참여" then -6
  else 0

/-- The accumulated score before the `max(0, min(100, score))` clamp. -/
def preClampScore (ev_type alloc market : String) (fields : List (String × String))
    (raise_krw mcap_krw : Int) (discount_pct : Option ℚ) (major_part : String) : Int :=
  10 + evBonus ev_type + marketBonus market + allocBonus alloc +
    purposeBonus ((fget fields "자금조달의목적").getD "") + fieldsBonus fields +
    ratioBonus raise_krw mcap_krw + discountBonus discount_pct + majorBonus major_part

/-- Lines 650–657: the grade/emoji tiers of the clamped score. -/
def gradeEmoji (score : Int) : String × String :=
  if 80 ≤ score then ("높음", "🔴")
  else if 60 ≤ score then ("중간", "🟠")
  else if 40 ≤ score then ("낮음", "🟡")
  else ("매우낮음", "🟢")

/-- Models `risk_score(...)` → `(score, grade, emoji)`.  (`doc_text` is a parameter
of the Python function but is never read by it.) -/
def risk_score (ev_type alloc market : String) (fields : List (String × String))
    (raise_krw mcap_krw : Int) (discount_pct : Option ℚ) (major_part : String) :
    Int × String × String :=
  (max 0 (min 100 (preClampScore ev_type alloc market fields raise_krw mcap_krw
      discount_pct major_part)),
   gradeEmoji (max 0 (min 100 (preClampScore ev_type alloc market fields raise_krw mcap_krw
      discount_pct major_part))))

/-- Which threshold bucket the ratio test of lines 617–628 selects:
`0` = the `raise_krw > 0 and mcap_krw > 0` guard fails, `1`–`5` = the five
bonus branches in increasing order. -/
def ratioBucket (raise_krw mcap_krw : Int) : Nat :=
  if 0 < raise_krw ∧ 0 < mcap_krw then
    let ratio : ℚ := (raise_krw : ℚ) / (mcap_krw : ℚ)
    if 1 / 2 ≤ ratio then 5
    else if 3 / 10 ≤ ratio then 4
    else if 3 / 20 ≤ ratio then 3
    else if 1 / 20 ≤ ratio then 2
    else 1
  else 0

/-- The bonus awarded to each ratio bucket. -/
def bucketBonus : Nat → Int
  | 0 => 0
  | 1 => 2
  | 2 => 6
  | 3 => 10
  | 4 => 16
  | _ => 22

/-! ## Concrete inputs used by witnesses and counterexamples -/

/-- A non-archive document response whose textified body is `t`. -/
def textResp (t : String) : DocResponse :=
  { httpError := false, contentType := "application/xml", startsPK := false,
    zipOpenOk := true, entries := [], rawTextified := t.data }

/-- A single successful listing page carrying exactly `its`. -/
def pageOf (its : List Item) : PageResp :=
  { status := "000", message := "", lst := its,
    total_count := some its.length, page_count := some 100 }

/-- The default market filter `MARKET_CLASSES = "Y,K,N"`. -/
def defaultMarkets : List String := ["Y", "K", "N"]

def itC1 : Item :=
  { rcept_no := "20240101000001", corp_cls := "Y",
    report_nm := "유상증자결정 제 3 자 배정", corp_name := "CorpA",
    rcept_dt := "20240101", stock_code := "" }

def envC1 : Env :=
  { marketClasses := defaultMarkets, listPages := fun _ => pageOf [itC1],
    doc := fun _ => textResp "주주배정", sendOk := fun _ => true }

def itC2 : Item :=
  { rcept_no := "20240102000002", corp_cls := "Y",
    report_nm := "유상증자 결정", corp_name := "CorpB",
    rcept_dt := "20240102", stock_code := "" }

def envC2 : Env :=
  { marketClasses := defaultMarkets, listPages := fun _ => pageOf [itC2],
    doc := fun _ => textResp "일반주주배정", sendOk := fun _ => true }

def itC3 : Item :=
  { rcept_no := "20240103000003", corp_cls := "K",
    report_nm := "유상증자결정", corp_name := "CorpC",
    rcept_dt := "20240103", stock_code := "" }

def envC3 : Env :=
  { marketClasses := defaultMarkets, listPages := fun _ => pageOf [itC3],
    doc := fun _ => textResp "abc", sendOk := fun _ => true }

/-- Like `envC3` but the body names an allowed allocation. -/
def envC3w : Env :=
  { marketClasses := defaultMarkets, listPages := fun _ => pageOf [itC3],
    doc := fun _ => textResp "구주주 청약", sendOk := fun _ => true }

def itC4 : Item :=
  { rcept_no := "20240104000004", corp_cls := "Y",
    report_nm := "무상증자결정", corp_name := "CorpD",
    rcept_dt := "20240104", stock_code := "" }

/-- An environment whose Telegram transport fails. -/
def envC4 : Env :=
  { marketClasses := defaultMarkets, listPages := fun _ => pageOf [itC4],
    doc := fun _ => textResp "주주배정", sendOk := fun _ => false }

/-- A document request that fails at the HTTP layer. -/
def respHttpErr : DocResponse :=
  { httpError := true, contentType := "", startsPK := false,
    zipOpenOk := true, entries := [], rawTextified := [] }

/-- A zip-flagged payload `zipfile.ZipFile` rejects. -/
def respBadZip : DocResponse :=
  { httpError := false, contentType := "application/zip", startsPK := true,
    zipOpenOk := false, entries := [], rawTextified := [] }

def itC5 : Item :=
  { rcept_no := "20240105000005", corp_cls := "Y",
    report_nm := "유상증자결정", corp_name := "CorpE",
    rcept_dt := "20240105", stock_code := "" }

def envC5 : Env :=
  { marketClasses := defaultMarkets, listPages := fun _ => pageOf [itC5],
    doc := fun _ => respHttpErr, sendOk := fun _ => true }

/-- A listing page with a declared error status. -/
def pageErr : PageResp :=
  { status := "999", message := "boom", lst := [],
    total_count := none, page_count := none }

def envC6 : Env :=
  { marketClasses := defaultMarkets, listPages := fun _ => pageErr,
    doc := fun _ => textResp "", sendOk := fun _ => true }

/-- A state whose `seen` list holds `SEEN_MAX + 1` entries, the oldest being
`""`. -/
def stBig : List (String × J) :=
  [("seen", J.arr (J.str "" :: List.replicate SEEN_MAX (J.str "a")))]

/-- A small well-formed state. -/
def stSmall : List (String × J) := [("seen", J.arr [J.str "a"])]

/-! ## Helper lemmas -/

theorem startsWithSeq_containsSeq {p l : List Char} (h : startsWithSeq p l = true) :
    containsSeq p l = true := by
  cases l with
  | nil => simpa [containsSeq] using h
  | cons a rest => simp [containsSeq, h]

/-- Dropping the first character of a literal pattern preserves a hit:
any occurrence of `c :: p` contains an occurrence of `p` one position later. -/
theorem containsSeq_cons_elim {c : Char} {p l : List Char}
    (h : containsSeq (c :: p) l = true) : containsSeq p l = true := by
  induction l with
  | nil => simp [containsSeq, startsWithSeq, stripSeq] at h
  | cons a rest ih =>
    rw [containsSeq] at h
    rcases (by simpa using h :
        startsWithSeq (c :: p) (a :: rest) = true ∨ containsSeq (c :: p) rest = true)
      with hs | hc
    · rw [startsWithSeq, stripSeq] at hs
      by_cases hca : c = a
      · rw [if_pos hca] at hs
        have : containsSeq p rest = true := startsWithSeq_containsSeq hs
        rw [containsSeq]
        simp [this]
      · rw [if_neg hca] at hs
        simp [Option.isSome] at hs
    · rw [containsSeq]
      simp [ih hc]

theorem any_replicate_false {α : Type} (n : Nat) (p : α → Bool) (x : α)
    (h : p x = false) : (List.replicate n x).any p = false := by
  induction n with
  | zero => rfl
  | succ k ih => simp [List.replicate_succ, List.any_cons, h, ih]

theorem lookupKey_setKey_self (st : List (String × J)) (k : String) (v : J) :
    lookupKey (setKey st k v) k = some v := by
  induction st with
  | nil => simp [setKey, lookupKey]
  | cons kv rest ih =>
    by_cases hk : kv.1 = k
    · simp [setKey, hk, lookupKey]
    · simp [setKey, hk, lookupKey, ih]

theorem setKey_eq_self {st : List (String × J)} {k : String} {v : J}
    (h : lookupKey st k = some v) : setKey st k v = st := by
  induction st with
  | nil => simp [lookupKey] at h
  | cons kv rest ih =>
    by_cases hk : kv.1 = k
    · rw [lookupKey, if_pos hk] at h
      cases h
      cases kv
      simp_all [setKey]
    · rw [lookupKey, if_neg hk] at h
      cases kv
      simp_all [setKey]

theorem bucketBonus_le_succ (b : Nat) : bucketBonus b ≤ bucketBonus (b + 1) := by
  match b with
  | 0 => decide
  | 1 => decide
  | 2 => decide
  | 3 => decide
  | 4 => decide
  | n + 5 => exact le_refl 22

theorem bucketBonus_mono {b1 b2 : Nat} (h : b1 ≤ b2) :
    bucketBonus b1 ≤ bucketBonus b2 := by
  induction h with
  | refl => exact le_refl _
  | step _ ih => exact le_trans ih (bucketBonus_le_succ _)

theorem ratioBonus_eq_bucketBonus (r m : Int) :
    ratioBonus r m = bucketBonus (ratioBucket r m) := by
  unfold ratioBonus ratioBucket
  dsimp only
  split_ifs <;> rfl

theorem clamp01_mono {a b : Int} (h : a ≤ b) :
    max 0 (min 100 a) ≤ max 0 (min 100 b) :=
  max_le_max (le_refl 0) (min_le_min (le_refl 100) h)

/-! ## Claim theorems -/

/-- Claim **C10.** Every report title containing the combined-increase phrase
`유무상증자` is classified as the bonus-only tag `무상` — because `무상증자`
is tested first and occurs inside `유무상증자` — and the `유무상` branch of
`classify_event_type` is unreachable for every input. -/
theorem classify_event_type_combined_is_musang :
    (∀ rn : String, containsSeq "유무상증자".data rn.data = true →
      classify_event_type rn = "무상") ∧
    (∀ rn : String, classify_event_type rn ≠ "유무상") := by
  have key : ∀ s : List Char, containsSeq "유무상증자".data s = true →
      containsSeq "무상증자".data s = true := by
    intro s h
    exact containsSeq_cons_elim (h : containsSeq ('유' :: "무상증자".data) s = true)
  constructor
  · intro rn h
    unfold classify_event_type
    rw [if_pos (key _ h)]
  · intro rn
    unfold classify_event_type
    split_ifs with h1 h2 h3
    · decide
    · exact absurd (key _ h2) h1
    · decide
    · decide

/-- Witness for `classify_event_type_combined_is_musang` at the concrete
title `유무상증자결정`. -/
theorem classify_event_type_witness :
    containsSeq "유무상증자".data "유무상증자결정".data = true ∧
    classify_event_type "유무상증자결정" = "무상" :=
  ⟨by decide, classify_event_type_combined_is_musang.1 "유무상증자결정" (by decide)⟩

/-- Claim **C9.** The risk score is monotone in the two claimed inputs: with all
other arguments fixed, a raise-to-market-cap ratio in a higher threshold
bucket never yields a smaller clamped score, and a participating
(`참여`) controlling shareholder never scores above an abstaining (`불참`)
one. -/
theorem risk_score_monotone :
    (∀ (ev alloc market : String) (fields : List (String × String))
        (r1 m1 r2 m2 : Int) (d : Option ℚ) (mp : String),
      ratioBucket r1 m1 ≤ ratioBucket r2 m2 →
      (risk_score ev alloc market fields r1 m1 d mp).1 ≤
        (risk_score ev alloc market fields r2 m2 d mp).1) ∧
    (∀ (ev alloc market : String) (fields : List (String × String))
        (r m : Int) (d : Option ℚ),
      (risk_score ev alloc market fields r m d "참여").1 ≤
        (risk_score ev alloc market fields r m d "불참").1) := by
  constructor
  · intro ev alloc market fields r1 m1 r2 m2 d mp h
    apply clamp01_mono
    unfold preClampScore
    rw [ratioBonus_eq_bucketBonus, ratioBonus_eq_bucketBonus]
    have := bucketBonus_mono h
    omega
  · intro ev alloc market fields r m d
    apply clamp01_mono
    unfold preClampScore
    have h1 : majorBonus "참여" = -6 := by decide
    have h2 : majorBonus "불참" = 18 := by decide
    rw [h1, h2]
    omega

/-- Witness for `risk_score_monotone` at concrete inputs (ratio 10% vs
50%, and participation vs abstention). -/
theorem risk_score_monotone_witness :
    ratioBucket 10 100 ≤ ratioBucket 50 100 ∧
    (risk_score "유상" "주주배정" "KOSDAQ" [] 10 100 none "N/A").1 ≤
      (risk_score "유상" "주주배정" "KOSDAQ" [] 50 100 none "N/A").1 ∧
    (risk_score "유상" "주주배정" "KOSDAQ" [] 50 100 none "참여").1 ≤
      (risk_score "유상" "주주배정" "KOSDAQ" [] 50 100 none "불참").1 :=
  have hb : ratioBucket 10 100 ≤ ratioBucket 50 100 := by
    have e1 : ratioBucket 10 100 = 2 := by unfold ratioBucket; norm_num
    have e2 : ratioBucket 50 100 = 5 := by unfold ratioBucket; norm_num
    rw [e1, e2]; decide
  ⟨hb,
   risk_score_monotone.1 "유상" "주주배정" "KOSDAQ" [] 10 100 50 100 none "N/A" hb,
   risk_score_monotone.2 "유상" "주주배정" "KOSDAQ" [] 50 100 none⟩

/-- Claim **C1 (counterexample).** A title that matches an increase-decision
pattern *and* contains the spaced third-party synonym `제 3 자 배정` is not
rejected at the title step: its document body is fetched and — the body
being clean — the filing is accepted and sent. -/
theorem exc3rd_title_accepted_example :
    EXC_3RD_search (pyStrip itC1.report_nm).data = true ∧
    process_filing envC1 (load_state none) itC1 = Step.sentAndSeen := by
  exact ⟨by decide, by decide⟩

/-- Claim **C1 (amended).** The title step tests only the `INC_REPORT` pattern:
a third-party synonym in the title does not cause rejection there, and
whenever the id/seen/market/title gates pass — in particular also when the
title contains a third-party synonym — the document body is fetched.
`EXC_3RD` is applied to the body text only. -/
theorem title_gate_ignores_exc3rd (env : Env) (st : List (String × J)) (it : Item)
    (_h3rd : EXC_3RD_search (pyStrip it.report_nm).data = true)
    (hrno : pyStrip it.rcept_no ≠ "")
    (hseen : is_seen st (pyStrip it.rcept_no) = false)
    (hmk : market_ok env.marketClasses (pyUpper (pyStrip it.corp_cls)) = true)
    (hinc : INC_REPORT_search (pyStrip it.report_nm).data = true) :
    fetchAttempted (process_filing env st it) = true := by
  unfold process_filing
  rw [if_neg hrno, if_neg (by simp [hseen]), if_neg (by simp [hmk]),
    if_neg (by simp [hinc])]
  cases fetch_document_text (env.doc (pyStrip it.rcept_no)) with
  | error e => rfl
  | ok doc =>
    show fetchAttempted (if EXC_3RD_search doc then Step.seenExc3rd
      else if classify_allocation doc = "N/A" then Step.seenAllocNA
      else if env.sendOk (pyStrip it.rcept_no) then Step.sentAndSeen
      else Step.sendAborted) = true
    split_ifs <;> rfl

/-- Witness for `title_gate_ignores_exc3rd` at the concrete filing `itC1`. -/
theorem title_gate_ignores_exc3rd_witness :
    fetchAttempted (process_filing envC1 (load_state none) itC1) = true :=
  title_gate_ignores_exc3rd envC1 (load_state none) itC1 (by decide) (by decide)
    (by decide) (by decide) (by decide)

/-- Claim **C2.** Whenever the pipeline accepts a filing (a card is built and the
send succeeds), the fetched body text — in particular when non-empty — does
not match the third-party disqualifier `EXC_3RD`. -/
theorem accepted_body_not_exc3rd (env : Env) (st : List (String × J)) (it : Item)
    (doc : List Char)
    (hacc : process_filing env st it = Step.sentAndSeen)
    (hdoc : fetch_document_text (env.doc (pyStrip it.rcept_no)) = Except.ok doc)
    (_hne : doc ≠ []) :
    EXC_3RD_search doc = false := by
  unfold process_filing at hacc
  by_cases h1 : pyStrip it.rcept_no = ""
  · rw [if_pos h1] at hacc; exact absurd hacc (by decide)
  rw [if_neg h1] at hacc
  by_cases h2 : is_seen st (pyStrip it.rcept_no) = true
  · rw [if_pos h2] at hacc; exact absurd hacc (by decide)
  rw [if_neg h2] at hacc
  by_cases h3 : (!market_ok env.marketClasses (pyUpper (pyStrip it.corp_cls))) = true
  · rw [if_pos h3] at hacc; exact absurd hacc (by decide)
  rw [if_neg h3] at hacc
  by_cases h4 : (!INC_REPORT_search (pyStrip it.report_nm).data) = true
  · rw [if_pos h4] at hacc; exact absurd hacc (by decide)
  rw [if_neg h4] at hacc
  rw [hdoc] at hacc
  have hacc' : (if EXC_3RD_search doc then Step.seenExc3rd
      else if classify_allocation doc = "N/A" then Step.seenAllocNA
      else if env.sendOk (pyStrip it.rcept_no) then Step.sentAndSeen
      else Step.sendAborted) = Step.sentAndSeen := hacc
  by_cases h5 : EXC_3RD_search doc = true
  · rw [if_pos h5] at hacc'; exact absurd hacc' (by decide)
  · exact Bool.not_eq_true _ ▸ h5

/-- Witness for `accepted_body_not_exc3rd`: the concrete filing `itC2` is
accepted, and indeed its (non-empty) body is `EXC_3RD`-clean. -/
theorem accepted_body_not_exc3rd_witness :
    process_filing envC2 (load_state none) itC2 = Step.sentAndSeen ∧
    EXC_3RD_search "일반주주배정".data = false :=
  ⟨by decide,
   accepted_body_not_exc3rd envC2 (load_state none) itC2 "일반주주배정".data
     (by decide) rfl (by decide)⟩

/-- Claim **C3 (counterexample).** A filing whose title passes the title gate and
whose body is non-empty and `EXC_3RD`-clean is nonetheless *rejected* when
the body matches no allowed allocation pattern: the pipeline demands a
positive `classify_allocation` hit, which the claim denies. -/
theorem clean_body_not_sufficient_example :
    INC_REPORT_search (pyStrip itC3.report_nm).data = true ∧
    fetch_document_text (envC3.doc (pyStrip itC3.rcept_no)) = Except.ok "abc".data ∧
    EXC_3RD_search "abc".data = false ∧
    "abc".data ≠ [] ∧
    process_filing envC3 (load_state none) itC3 = Step.seenAllocNA := by
  exact ⟨by decide, rfl, by decide, by decide, by decide⟩

/-- Claim **C3 (amended).** A filing passing the title gate whose non-empty body
is `EXC_3RD`-clean is accepted *iff additionally* the body matches an
allowed allocation pattern (`classify_allocation ≠ "N/A"`); with that extra
condition (and a working transport) the filing is accepted and sent. -/
theorem accept_requires_allocation_match (env : Env) (st : List (String × J))
    (it : Item) (doc : List Char)
    (hrno : pyStrip it.rcept_no ≠ "")
    (hseen : is_seen st (pyStrip it.rcept_no) = false)
    (hmk : market_ok env.marketClasses (pyUpper (pyStrip it.corp_cls)) = true)
    (hinc : INC_REPORT_search (pyStrip it.report_nm).data = true)
    (hdoc : fetch_document_text (env.doc (pyStrip it.rcept_no)) = Except.ok doc)
    (hexc : EXC_3RD_search doc = false)
    (halloc : classify_allocation doc ≠ "N/A")
    (hsend : env.sendOk (pyStrip it.rcept_no) = true) :
    process_filing env st it = Step.sentAndSeen := by
  unfold process_filing
  rw [if_neg hrno, if_neg (by simp [hseen]), if_neg (by simp [hmk]),
    if_neg (by simp [hinc]), hdoc]
  show (if EXC_3RD_search doc then Step.seenExc3rd
      else if classify_allocation doc = "N/A" then Step.seenAllocNA
      else if env.sendOk (pyStrip it.rcept_no) then Step.sentAndSeen
      else Step.sendAborted) = Step.sentAndSeen
  rw [if_neg (by simp [hexc]), if_neg halloc, if_pos (by simp [hsend])]

/-- Witness for `accept_requires_allocation_match`: with body `구주주 청약`
(an allowed allocation), `itC3` is accepted. -/
theorem accept_requires_allocation_match_witness :
    process_filing envC3w (load_state none) itC3 = Step.sentAndSeen :=
  accept_requires_allocation_match envC3w (load_state none) itC3 "구주주 청약".data
    (by decide) (by decide) (by decide) (by decide) rfl (by decide) (by decide)
    (by decide)

/-- Claim **C4 (counterexample).** With a failing Telegram transport, the run
aborts (`sendError`), nothing is persisted, and the affected filing is not
marked seen — contradicting the claim that a send failure does not abort the
run and still marks the filing seen. -/
theorem send_failure_aborts_example :
    main_run envC4 none = RunResult.sendError [("seen", J.arr [])] ∧
    is_seen [("seen", J.arr [])] "20240104000004" = false := by
  exact ⟨rfl, by decide⟩

/-- Claim **C4 (amended).** An uncaught `tg_send` exception aborts the item loop at
the failing filing: the loop result is `aborted` with the state exactly as it
was (so the filing is not marked seen, and — `aborted` never reaching
`save_state` — nothing is persisted). -/
theorem send_failure_aborts_run (env : Env) (st : List (String × J)) (it : Item)
    (rest : List Item) (sent : Nat)
    (h : process_filing env st it = Step.sendAborted) :
    process_items env (it :: rest) st sent = LoopResult.aborted st ∧
    is_seen st (pyStrip it.rcept_no) = false := by
  constructor
  · simp only [process_items, h]
  · unfold process_filing at h
    by_cases h1 : pyStrip it.rcept_no = ""
    · rw [if_pos h1] at h; exact absurd h (by decide)
    rw [if_neg h1] at h
    by_cases h2 : is_seen st (pyStrip it.rcept_no) = true
    · rw [if_pos h2] at h; exact absurd h (by decide)
    · exact Bool.not_eq_true _ ▸ h2

/-- Witness for `send_failure_aborts_run` at the concrete filing `itC4`. -/
theorem send_failure_aborts_run_witness :
    process_items envC4 [itC4] [("seen", J.arr [])] 0 =
      LoopResult.aborted [("seen", J.arr [])] ∧
    is_seen [("seen", J.arr [])] (pyStrip itC4.rcept_no) = false :=
  send_failure_aborts_run envC4 [("seen", J.arr [])] itC4 [] 0 (by decide)

/-- Claim **C5 (counterexample).** `fetch_document_text` does raise: an HTTP-layer
failure and an unreadable archive both escape as exceptions (`Except.error`),
not as an empty-string result. -/
theorem fetch_document_raises_example :
    fetch_document_text respHttpErr = Except.error "HTTPError" ∧
    fetch_document_text respBadZip = Except.error "BadZipFile" := by
  exact ⟨rfl, rfl⟩

/-- Claim **C5 (amended).** `fetch_document_text` raises exactly on an HTTP/network
failure or on a zip-flagged payload the archive opener rejects — failures
reading individual archive members are suppressed (the member is skipped) —
and `main` catches the exception, marking the filing seen and skipping it. -/
theorem fetch_document_error_characterization :
    (∀ resp : DocResponse,
      (∃ e, fetch_document_text resp = Except.error e) ↔
        (resp.httpError = true ∨
          (resp.httpError = false ∧ isZipResp resp = true ∧
            resp.zipOpenOk = false))) ∧
    (∀ (env : Env) (st : List (String × J)) (it : Item) (e : String),
      pyStrip it.rcept_no ≠ "" →
      is_seen st (pyStrip it.rcept_no) = false →
      market_ok env.marketClasses (pyUpper (pyStrip it.corp_cls)) = true →
      INC_REPORT_search (pyStrip it.report_nm).data = true →
      fetch_document_text (env.doc (pyStrip it.rcept_no)) = Except.error e →
      process_filing env st it = Step.seenFetchError) := by
  constructor
  · intro resp
    unfold fetch_document_text
    split_ifs with h1 h2 h3 <;> simp_all
  · intro env st it e hrno hseen hmk hinc herr
    unfold process_filing
    rw [if_neg hrno, if_neg (by simp [hseen]), if_neg (by simp [hmk]),
      if_neg (by simp [hinc]), herr]

/-- Witness for `fetch_document_error_characterization`: the HTTP failure on
the document request of `itC5` makes the loop body of `main` mark-and-skip it. -/
theorem fetch_document_error_witness :
    process_filing envC5 [("seen", J.arr [])] itC5 = Step.seenFetchError :=
  fetch_document_error_characterization.2 envC5 [("seen", J.arr [])] itC5
    "HTTPError" (by decide) (by decide) (by decide) (by decide) rfl

/-- Claim **C6.** A declared error status from the listing endpoint (anything other
than the `"000"` success and `"013"` no-data sentinels) raises out of
`fetch_list_pages` before any item is processed: the run ends as `listError`,
so no `mark_seen` runs and `save_state` is never reached — no dedup-store
state is written. -/
theorem list_error_aborts_run (env : Env) (file : Option J) (e : String)
    (h : fetch_list_pages env.listPages = Except.error e) :
    main_run env file = RunResult.listError e := by
  unfold main_run
  rw [h]

/-- Witness for `list_error_aborts_run`: a listing page with status `999`
aborts the whole run. -/
theorem list_error_aborts_run_witness :
    main_run envC6 none = RunResult.listError "LIST error 999: boom" :=
  list_error_aborts_run envC6 none "LIST error 999: boom" rfl


/-- Unfolding equation for `is_seen` on a store with a list-valued `seen`. -/
theorem is_seen_eq (st : List (String × J)) (l : List J)
    (hl : lookupKey st "seen" = some (J.arr l)) (x : String) :
    is_seen st x = l.any (seenMatch x) := by
  unfold is_seen
  rw [hl]

/-- Unfolding equation for `mark_seen` on a store with a list-valued `seen`. -/
theorem mark_seen_eq (st : List (String × J)) (l : List J)
    (hl : lookupKey st "seen" = some (J.arr l)) (x : String) :
    mark_seen st x = setKey st "seen" (J.arr (l ++ [J.str x])) := by
  unfold mark_seen
  rw [hl]

/-- Unfolding equation for `save_state` on a store with a list-valued `seen`. -/
theorem save_state_eq (st : List (String × J)) (l : List J)
    (hl : lookupKey st "seen" = some (J.arr l)) :
    save_state st = setKey st "seen" (J.arr (l.drop (l.length - SEEN_MAX))) := by
  unfold save_state
  rw [hl]

/-- Unfolding equation for `load_state` on a parsed dictionary whose `seen`
is a list. -/
theorem load_state_obj_eq (st : List (String × J)) (l : List J)
    (hl : lookupKey st "seen" = some (J.arr l)) :
    load_state (some (J.obj st)) = st := by
  unfold load_state
  change (match lookupKey st "seen" with
    | some (J.arr _) => st
    | _ => setKey st "seen" (J.arr [])) = st
  rw [hl]

/-- Claim **C7 (counterexample).** Round-tripping is *not* set-preserving in
general: a store whose `seen` list holds `SEEN_MAX + 1` ids loses its oldest
id (here `""`) to the `seen[-SEEN_MAX:]` truncation of `save_state`. -/
theorem state_roundtrip_eviction_example :
    is_seen stBig "" = true ∧
    is_seen (load_state (some (J.obj (save_state stBig)))) "" = false := by
  have hl : lookupKey stBig "seen" =
      some (J.arr (J.str "" :: List.replicate SEEN_MAX (J.str "a"))) := rfl
  constructor
  · rw [is_seen_eq stBig _ hl]
    simp [List.any_cons, seenMatch]
  · have hsave := save_state_eq stBig _ hl
    rw [List.length_cons, List.length_replicate] at hsave
    have h2 : SEEN_MAX + 1 - SEEN_MAX = 1 := by omega
    rw [h2, List.drop_succ_cons, List.drop_zero] at hsave
    have hset : setKey stBig "seen" (J.arr (List.replicate SEEN_MAX (J.str "a"))) =
        [("seen", J.arr (List.replicate SEEN_MAX (J.str "a")))] := rfl
    rw [hsave, hset,
      load_state_obj_eq [("seen", J.arr (List.replicate SEEN_MAX (J.str "a")))]
        (List.replicate SEEN_MAX (J.str "a")) rfl,
      is_seen_eq [("seen", J.arr (List.replicate SEEN_MAX (J.str "a")))]
        (List.replicate SEEN_MAX (J.str "a")) rfl]
    exact any_replicate_false _ _ _ (by decide)

/-- Claim **C7 (amended).** Provided the `seen` list of the store holds at most
`SEEN_MAX` (8000) entries, serialising then deserialising preserves the
membership set exactly (indeed the whole dictionary); and adding an
already-present id never changes membership as observed by `is_seen`. -/
theorem state_roundtrip_and_idempotent_add (st : List (String × J)) (l : List J)
    (hl : lookupKey st "seen" = some (J.arr l))
    (hlen : l.length ≤ SEEN_MAX) :
    (∀ x, is_seen (load_state (some (J.obj (save_state st)))) x = is_seen st x) ∧
    (∀ x y, is_seen st x = true → is_seen (mark_seen st x) y = is_seen st y) := by
  have hsave : save_state st = st := by
    rw [save_state_eq st l hl, Nat.sub_eq_zero_of_le hlen, List.drop_zero]
    exact setKey_eq_self hl
  constructor
  · intro x
    rw [hsave, load_state_obj_eq st l hl]
  · intro x y hx
    rw [is_seen_eq st l hl] at hx
    rw [mark_seen_eq st l hl x,
      is_seen_eq _ _ (lookupKey_setKey_self st "seen" (J.arr (l ++ [J.str x]))),
      is_seen_eq st l hl, List.any_append]
    rcases eq_or_ne x y with rfl | hne
    · simp [List.any_cons, seenMatch, hx]
    · simp [List.any_cons, seenMatch, hne]

/-- Witness for `state_roundtrip_and_idempotent_add` on the one-entry store
`stSmall`. -/
theorem state_roundtrip_witness :
    is_seen (load_state (some (J.obj (save_state stSmall)))) "a" =
      is_seen stSmall "a" ∧
    is_seen (mark_seen stSmall "a") "a" = is_seen stSmall "a" :=
  ⟨(state_roundtrip_and_idempotent_add stSmall [J.str "a"] rfl (by decide)).1 "a",
   (state_roundtrip_and_idempotent_add stSmall [J.str "a"] rfl (by decide)).2
     "a" "a" (by decide)⟩

/-- Claim **C8.** Ids are never removed except by the `save_state` eviction:
`mark_seen` only ever extends membership; and the persisted `seen` list is
exactly the suffix of the in-memory list past its first
`length - SEEN_MAX` (oldest, FIFO) entries — hence never longer than
`SEEN_MAX`, always the most recent ids, and the whole list whenever it fits
the bound. -/
theorem seen_eviction_fifo_bound (st : List (String × J)) (l : List J)
    (hl : lookupKey st "seen" = some (J.arr l)) :
    (∀ x y, is_seen st y = true → is_seen (mark_seen st x) y = true) ∧
    lookupKey (save_state st) "seen" =
      some (J.arr (l.drop (l.length - SEEN_MAX))) ∧
    l.take (l.length - SEEN_MAX) ++ l.drop (l.length - SEEN_MAX) = l ∧
    (l.drop (l.length - SEEN_MAX)).length ≤ SEEN_MAX ∧
    (l.length ≤ SEEN_MAX → l.drop (l.length - SEEN_MAX) = l) := by
  refine ⟨?_, ?_, List.take_append_drop _ _, ?_, ?_⟩
  · intro x y hy
    rw [is_seen_eq st l hl] at hy
    rw [mark_seen_eq st l hl x,
      is_seen_eq _ _ (lookupKey_setKey_self st "seen" (J.arr (l ++ [J.str x]))),
      List.any_append]
    simp [hy]
  · rw [save_state_eq st l hl]
    exact lookupKey_setKey_self _ _ _
  · rw [List.length_drop]
    omega
  · intro h
    rw [Nat.sub_eq_zero_of_le h, List.drop_zero]

/-- Witness for `seen_eviction_fifo_bound` on the one-entry store
`stSmall`. -/
theorem seen_eviction_fifo_bound_witness :
    is_seen (mark_seen stSmall "b") "a" = true ∧
    lookupKey (save_state stSmall) "seen" = some (J.arr [J.str "a"]) :=
  ⟨(seen_eviction_fifo_bound stSmall [J.str "a"] rfl).1 "b" "a" (by decide),
   (seen_eviction_fifo_bound stSmall [J.str "a"] rfl).2.1⟩
